import Mathlib

/-!
Shallow embedding of `multiminio.py` (asuiu/MultiMinio): a fallback facade
over several Minio clients.  The Python class `MultiMinio` keeps mutable
state (current client index, last health-check timestamp, failure-streak
timestamp, cached health snapshot) and interacts with the outside world
through `ts_type.now()`, HTTP health probes, and the wrapped Minio calls.

The embedding makes the external world an explicit `Env`:
  * `clock n` is the value returned by the n-th call to `now()` that the
    facade's control flow makes (probe-internal `now()` calls only feed the
    logged latency, which the control flow never reads, so they are folded
    into `probe`);
  * `probe r i` is the `HealthStatus` obtained for endpoint `i` during the
    r-th probing round (`_check_health_status`, including its latency);
  * `call k i` is the outcome of the k-th wrapped-method invocation, made
    against client `i`.
State is threaded explicitly; the unbounded `while` loops take fuel and
return `none` when the fuel runs out (the Python loop would still be
running).  Exceptions raised to the caller become constructors of the
result types.  Timestamps are integers; only ordering and subtraction are
used by the code.
-/

/-- Status field of `HealthStatus`: the Python attribute holds either the
numeric HTTP status code or the caught `requests.RequestException` object
(`status_code: int | Exception`). -/
inductive StatusCode where
  | code (n : Int)
  | excep (e : Nat)
deriving DecidableEq, Repr

/-- Embedding of the `HealthStatus` NamedTuple. -/
structure HealthStatus where
  statusCode : StatusCode
  responseTime : Option Int
deriving DecidableEq, Repr

/-- Embedding of the `LoadBalanceType` StrEnum. -/
inductive LoadBalanceType where
  | fallback
  | roundRobin
  | rndm
deriving DecidableEq, Repr

/-- Outcome of one underlying Minio-method invocation, as seen by
`_execute_with_fallback`: a returned result, or one of the three
exception groups its `try` distinguishes. -/
inductive CallOutcome where
  | ok (r : Int)
  | s3err (e : Int)
  | invalidResp (e : Int)
  | transport (e : Int)
deriving DecidableEq, Repr

/-- Name and arguments of the wrapped operation (`func.__name__`, `args`,
`kwargs`), used in the terminal error message of `_execute_with_fallback`. -/
structure OperationSig where
  name : String
  args : List Int
deriving DecidableEq, Repr

/-- The external world: clock values, probe results and call outcomes. -/
structure Env where
  clock : Nat → Int
  probe : Nat → Nat → HealthStatus
  call : Nat → Nat → CallOutcome

/-- The `MultiMinio` instance state: configuration fixed by `__init__` and
the mutable fields guarded by `self._lock`, plus the cursors that address
the `Env` (how many `now()` calls, probe rounds and wrapped calls have
happened). -/
structure MState where
  nClients : Nat
  loadBalanceType : LoadBalanceType
  fallbackTimeout : Int
  healthCheckTimeout : Int
  healthCheckHeartbeat : Int
  maxTryTimeout : Int
  healthCheckMinInterval : Int
  currentClientIndex : Nat
  lastHealthCheckTs : Int
  currentFailTs : Option Int
  healthStatuses : Option (List HealthStatus)
  clockIdx : Nat
  probeRound : Nat
  callIdx : Nat
deriving DecidableEq, Repr

/-- One `self._ts_type.now()` call: read the next clock value. -/
def tsNow (env : Env) (st : MState) : Int × MState :=
  (env.clock st.clockIdx, { st with clockIdx := st.clockIdx + 1 })

/-- Embedding of `MultiMinio.__init__` (lines 46-82).  The four `assert`
statements become `none`; on success the state starts at client index 0,
`_last_health_check_ts = TS(0)`, `_current_fail_ts = None`,
`_health_statuses = None`. -/
def mkMultiMinio (nClients : Nat) (lbt : LoadBalanceType)
    (fallbackTimeout healthCheckTimeout healthCheckHeartbeat
     maxTryTimeout healthCheckInterval : Int) : Option MState :=
  if 0 < nClients then
    if lbt = LoadBalanceType.fallback then
      if healthCheckHeartbeat ≥ healthCheckInterval * 2 then
        if healthCheckInterval ≥ healthCheckTimeout * 2 then
          some { nClients := nClients
                 loadBalanceType := lbt
                 fallbackTimeout := fallbackTimeout
                 healthCheckTimeout := healthCheckTimeout
                 healthCheckHeartbeat := healthCheckHeartbeat
                 maxTryTimeout := maxTryTimeout
                 healthCheckMinInterval := healthCheckInterval
                 currentClientIndex := 0
                 lastHealthCheckTs := 0
                 currentFailTs := none
                 healthStatuses := none
                 clockIdx := 0
                 probeRound := 0
                 callIdx := 0 }
        else none
      else none
    else none
  else none

/-- The check `health_status.status_code == 200` from `_get_next_client`
(line 147); an `Exception` stored in the field never equals `200`. -/
def isHealthy (h : HealthStatus) : Bool :=
  match h.statusCode with
  | StatusCode.code n => n == 200
  | StatusCode.excep _ => false

/-- The `for i, health_status in enumerate(health_statuses)` scan of
`_get_next_client` (lines 146-149): index of the first healthy entry. -/
def findHealthyIdx : List HealthStatus → Option Nat
  | [] => none
  | h :: t => if isHealthy h then some 0 else (findHealthyIdx t).map (· + 1)

/-- Embedding of `_retrieve_clients_health` (lines 156-165): if a snapshot
exists (`_last_health_check_ts > TS(0)`) and is younger than
`_health_check_min_interval`, return it unchanged; otherwise probe every
client (`stream(self._clients).mtmap(...)` keeps input order) and replace
both the snapshot and its timestamp with a fresh `now()`. -/
def retrieveClientsHealth (env : Env) (st : MState) : List HealthStatus × MState :=
  let p := tsNow env st
  let st1 := p.2
  if 0 < st1.lastHealthCheckTs ∧ p.1 - st1.lastHealthCheckTs < st1.healthCheckMinInterval then
    (st1.healthStatuses.getD [], st1)
  else
    let statuses := (List.range st1.nClients).map (env.probe st1.probeRound)
    let q := tsNow env st1
    (statuses, { q.2 with lastHealthCheckTs := q.1
                          healthStatuses := some statuses
                          probeRound := st1.probeRound + 1 })

/-- Result of `_get_next_client`: either the selected client index, or the
raised `MinioException("All Minio clients are down for {d} seconds")`
carrying the computed downtime. -/
inductive GNCResult where
  | client (i : Nat)
  | allDown (d : Int)
deriving DecidableEq, Repr

/-- The `while True` loop of `_get_next_client` (lines 144-154), with
`start_ts` already fixed: fetch a snapshot, return the first healthy
client (recording its index in `_current_client_index`), otherwise raise
once the downtime exceeds `_fallback_timeout`, else loop.  `none` means
the fuel ran out while the Python loop was still spinning. -/
def getNextClientLoop (env : Env) : Nat → Int → MState → Option (GNCResult × MState)
  | 0, _, _ => none
  | fuel + 1, startTs, st =>
    let p := retrieveClientsHealth env st
    let st1 := p.2
    match findHealthyIdx p.1 with
    | some i => some (GNCResult.client i, { st1 with currentClientIndex := i })
    | none =>
      let q := tsNow env st1
      if q.1 - startTs > q.2.fallbackTimeout then
        some (GNCResult.allDown (q.1 - startTs), q.2)
      else
        getNextClientLoop env fuel startTs q.2

/-- Embedding of `_get_next_client` (lines 138-154).  Line 142,
`start_ts = self._current_fail_ts or self._ts_type.now()`: `TS` is a float
subtype, so both `None` and `TS(0)` are falsy and fall through to
`now()`. -/
def getNextClient (env : Env) (fuel : Nat) (st : MState) : Option (GNCResult × MState) :=
  match st.currentFailTs with
  | some t =>
    if t = 0 then
      let p := tsNow env st
      getNextClientLoop env fuel p.1 p.2
    else
      getNextClientLoop env fuel t st
  | none =>
    let p := tsNow env st
    getNextClientLoop env fuel p.1 p.2

/-- Embedding of `_get_current_client` (lines 93-99): if on a non-primary
client and the snapshot age exceeds `_health_check_heartbeat`, delegate to
`_get_next_client`; otherwise return the currently selected client. -/
def getCurrentClient (env : Env) (fuel : Nat) (st : MState) : Option (GNCResult × MState) :=
  let p := tsNow env st
  let st1 := p.2
  if 0 < st1.currentClientIndex ∧ p.1 - st1.lastHealthCheckTs > st1.healthCheckHeartbeat then
    getNextClient env fuel st1
  else
    some (GNCResult.client st1.currentClientIndex, st1)

/-- Lines 127-129 of `_execute_with_fallback`: under the lock, set
`_current_fail_ts` to the call's `start_try_ts` only when it is `None`. -/
def markFail (ts : Int) (st : MState) : MState :=
  match st.currentFailTs with
  | none => { st with currentFailTs := some ts }
  | some _ => st

/-- Result of `_execute_with_fallback`: the returned value, a re-raised
`S3Error` or `InvalidResponseError`, the propagated
`MinioException` from `_get_next_client`, or the terminal
`MinioException(f"Failed to execute: {name}({args}) ... within
{max_try_timeout} seconds")` with the data interpolated into its
message. -/
inductive ExecResult where
  | ok (r : Int)
  | s3Error (e : Int)
  | invalidResponse (e : Int)
  | allDown (d : Int)
  | timeoutError (opName : String) (opArgs : List Int) (secs : Int)
deriving DecidableEq, Repr

/-- The `while` loop of `_execute_with_fallback` (lines 112-136):
while `now() - start_try_ts < fallback_timeout`, invoke the method on the
current client; on success clear `_current_fail_ts` and return; re-raise
`S3Error` and `InvalidResponseError`; on any other exception mark the
failure streak, find the next client (whose `MinioException` propagates)
and retry; once the guard fails, raise the terminal `MinioException`
whose message interpolates `self._max_try_timeout`. -/
def execLoop (env : Env) (op : OperationSig) :
    Nat → Int → Nat → MState → Option (ExecResult × MState)
  | 0, _, _, _ => none
  | fuel + 1, startTs, client, st =>
    let p := tsNow env st
    let st1 := p.2
    if p.1 - startTs < st1.fallbackTimeout then
      let outcome := env.call st1.callIdx client
      let st2 := { st1 with callIdx := st1.callIdx + 1 }
      match outcome with
      | CallOutcome.ok r => some (ExecResult.ok r, { st2 with currentFailTs := none })
      | CallOutcome.s3err e => some (ExecResult.s3Error e, st2)
      | CallOutcome.invalidResp e => some (ExecResult.invalidResponse e, st2)
      | CallOutcome.transport _ =>
        let st3 := markFail startTs st2
        match getNextClient env fuel st3 with
        | none => none
        | some (GNCResult.allDown d, st4) => some (ExecResult.allDown d, st4)
        | some (GNCResult.client i, st4) => execLoop env op fuel startTs i st4
    else
      some (ExecResult.timeoutError op.name op.args st1.maxTryTimeout, st1)

/-- Embedding of `_execute_with_fallback` (lines 101-136): record
`start_try_ts`, obtain the current client (a `MinioException` raised there
propagates), then run the retry loop. -/
def executeWithFallback (env : Env) (op : OperationSig) (fuel : Nat)
    (st : MState) : Option (ExecResult × MState) :=
  let p := tsNow env st
  match getCurrentClient env fuel p.2 with
  | none => none
  | some (GNCResult.allDown d, st1) => some (ExecResult.allDown d, st1)
  | some (GNCResult.client i, st1) => execLoop env op fuel p.1 i st1

/-! Concrete instances used to evaluate the theorems on closed inputs. -/

/-- A healthy probe result (HTTP 200 in 1 time unit). -/
def hsOk : HealthStatus := ⟨StatusCode.code 200, some 1⟩

/-- A failed probe result (caught `requests.RequestException`). -/
def hsDown : HealthStatus := ⟨StatusCode.excep 0, some 1⟩

/-- State of a freshly constructed facade with two clients,
`fallback_timeout = 60`, `health_check_timeout = 5`, heartbeat `300`,
`max_try_timeout = 60`, `health_check_interval = 10`. -/
def stBase : MState :=
  { nClients := 2
    loadBalanceType := LoadBalanceType.fallback
    fallbackTimeout := 60
    healthCheckTimeout := 5
    healthCheckHeartbeat := 300
    maxTryTimeout := 60
    healthCheckMinInterval := 10
    currentClientIndex := 0
    lastHealthCheckTs := 0
    currentFailTs := none
    healthStatuses := none
    clockIdx := 0
    probeRound := 0
    callIdx := 0 }

/-- A wrapped operation signature for the closed runs. -/
def opW : OperationSig := ⟨"put_object", [3]⟩

/-- World where endpoint 0 always fails with a transport error while
endpoint 1 is healthy and answers; the clock ticks slowly. -/
def envC1 : Env :=
  { clock := fun n => (n : Int) + 1
    probe := fun _ i => if i = 1 then hsOk else hsDown
    call := fun _ i => if i = 1 then CallOutcome.ok 42 else CallOutcome.transport 7 }

/-- World where every endpoint fails every probe and every call, and the
clock jumps by 100 per observation, so timeouts are hit at once. -/
def envDown : Env :=
  { clock := fun n => (n : Int) * 100
    probe := fun _ _ => hsDown
    call := fun _ _ => CallOutcome.transport 1 }

/-- World whose calls always raise `S3Error`; the clock ticks slowly. -/
def envS3 : Env :=
  { clock := fun n => (n : Int) + 1
    probe := fun _ _ => hsOk
    call := fun _ _ => CallOutcome.s3err 5 }

/-- World whose calls always raise `InvalidResponseError`. -/
def envIR : Env :=
  { clock := fun n => (n : Int) + 1
    probe := fun _ _ => hsOk
    call := fun _ _ => CallOutcome.invalidResp 9 }

/-- State holding a young health snapshot (cache hit under `envC1` when
`clockIdx = 5`: age `6 - 1 = 5 < 10`). -/
def stHit : MState :=
  { stBase with lastHealthCheckTs := 1, healthStatuses := some [hsOk, hsDown], clockIdx := 5 }

/-- Degraded state: serving from client 1 with a fresh snapshot timestamp. -/
def stDeg : MState :=
  { stBase with currentClientIndex := 1, lastHealthCheckTs := 1 }

/-- Degraded state whose snapshot is far older than the heartbeat. -/
def stStale : MState :=
  { stBase with currentClientIndex := 1, lastHealthCheckTs := -1000 }

/-- State with an active failure streak that started at time 5. -/
def stFail : MState :=
  { stBase with currentFailTs := some 5 }

/-- State of `stFail` after one fresh probe round under `envC1`. -/
def stFail2 : MState :=
  { stFail with clockIdx := 2, lastHealthCheckTs := 2,
                healthStatuses := some [hsDown, hsOk], probeRound := 1 }

/-- State of `stFail` after the search under `envDown` has probed once
and raised the terminal error at downtime `200 - 5 = 195`. -/
def stDownFinal : MState :=
  { stFail with clockIdx := 3, lastHealthCheckTs := 100,
                healthStatuses := some [hsDown, hsDown], probeRound := 1 }

/-- Fresh facade state whose `max_try_timeout` (77) differs from its
`fallback_timeout` (60), to separate the two in the terminal message. -/
def stMT : MState :=
  { stBase with maxTryTimeout := 77 }

/-- All-down world whose clock reads `100·n + 50`, so time 0 never recurs. -/
def envZ : Env :=
  { clock := fun n => (n : Int) * 100 + 50
    probe := fun _ _ => hsDown
    call := fun _ _ => CallOutcome.transport 1 }

/-- State whose failure streak started exactly at time `TS(0)`. -/
def stZ : MState :=
  { stBase with currentFailTs := some 0 }

/-! Helper lemmas about the first-healthy scan and state preservation. -/

/-- `findHealthyIdx` returns the first index whose entry is healthy. -/
lemma findHealthyIdx_of_first (l : List HealthStatus) (i : Nat) (hi : i < l.length)
    (hh : isHealthy (l.get ⟨i, hi⟩) = true)
    (hmin : ∀ x ∈ l.take i, isHealthy x = false) :
    findHealthyIdx l = some i := by
  induction l generalizing i with
  | nil => simp at hi
  | cons h t ih =>
    cases i with
    | zero =>
      simp only [List.get] at hh
      simp [findHealthyIdx, hh]
    | succ j =>
      have hh0 : isHealthy h = false := by
        apply hmin
        rw [List.take_succ_cons]
        exact List.mem_cons_self h _
      have hrec : findHealthyIdx t = some j := by
        apply ih j (Nat.lt_of_succ_lt_succ hi) hh
        intro x hx
        apply hmin
        rw [List.take_succ_cons]
        exact List.mem_cons_of_mem h hx
      simp [findHealthyIdx, hh0, hrec]

/-- A snapshot with no healthy entry yields no index. -/
lemma findHealthyIdx_none_of_all (l : List HealthStatus)
    (h : ∀ x ∈ l, isHealthy x = false) : findHealthyIdx l = none := by
  induction l with
  | nil => rfl
  | cons a t ih =>
    simp [findHealthyIdx, h a (List.mem_cons_self a t),
      ih (fun x hx => h x (List.mem_cons_of_mem a hx))]

/-- `_retrieve_clients_health` touches only the snapshot, its timestamp and
the cursors: everything else in the state is preserved. -/
lemma retrieve_state_pres (env : Env) (st : MState) :
    (retrieveClientsHealth env st).2.currentClientIndex = st.currentClientIndex ∧
    (retrieveClientsHealth env st).2.currentFailTs = st.currentFailTs ∧
    (retrieveClientsHealth env st).2.fallbackTimeout = st.fallbackTimeout ∧
    (retrieveClientsHealth env st).2.maxTryTimeout = st.maxTryTimeout ∧
    (retrieveClientsHealth env st).2.nClients = st.nClients ∧
    (retrieveClientsHealth env st).2.healthCheckMinInterval = st.healthCheckMinInterval ∧
    (retrieveClientsHealth env st).2.healthCheckHeartbeat = st.healthCheckHeartbeat ∧
    (retrieveClientsHealth env st).2.callIdx = st.callIdx := by
  simp only [retrieveClientsHealth, tsNow]
  split <;> simp

/-- C7: construction succeeds exactly when the clients collection is
non-empty, the mode is FALLBACK, `heartbeat ≥ 2·min_interval` and
`min_interval ≥ 2·probe_timeout`; a successful construction starts at
client index 0 with no failure streak. -/
theorem mkMultiMinio_spec (n : Nat) (lbt : LoadBalanceType) (ft hct hcb mtt hci : Int) :
    ((mkMultiMinio n lbt ft hct hcb mtt hci).isSome ↔
      (0 < n ∧ lbt = LoadBalanceType.fallback ∧ hcb ≥ hci * 2 ∧ hci ≥ hct * 2))
  ∧ ∀ st, mkMultiMinio n lbt ft hct hcb mtt hci = some st →
      st.currentClientIndex = 0 ∧ st.currentFailTs = none := by
  constructor
  · simp only [mkMultiMinio]
    split_ifs <;> simp_all
  · intro st h
    simp only [mkMultiMinio] at h
    split_ifs at h
    cases h
    exact ⟨rfl, rfl⟩

/-- Witness: the default construction (2 clients, 60/5/300/60/10) succeeds
and starts on client 0 with a null failure streak. -/
theorem mkMultiMinio_spec_witness :
    stBase.currentClientIndex = 0 ∧ stBase.currentFailTs = none :=
  (mkMultiMinio_spec 2 LoadBalanceType.fallback 60 5 300 60 10).2 stBase (by decide)

/-- C5: `_retrieve_clients_health` returns the stored snapshot untouched
(probing nothing) when one exists and is younger than
`health_check_min_interval`; otherwise it probes every client in order and
replaces both the snapshot and its timestamp. -/
theorem retrieveClientsHealth_spec (env : Env) (st : MState) (s : List HealthStatus) :
    (0 < st.lastHealthCheckTs →
     env.clock st.clockIdx - st.lastHealthCheckTs < st.healthCheckMinInterval →
     st.healthStatuses = some s →
      retrieveClientsHealth env st = (s, { st with clockIdx := st.clockIdx + 1 }))
  ∧ (¬(0 < st.lastHealthCheckTs ∧
       env.clock st.clockIdx - st.lastHealthCheckTs < st.healthCheckMinInterval) →
      retrieveClientsHealth env st =
        ((List.range st.nClients).map (env.probe st.probeRound),
         { st with clockIdx := st.clockIdx + 2
                   lastHealthCheckTs := env.clock (st.clockIdx + 1)
                   healthStatuses := some ((List.range st.nClients).map (env.probe st.probeRound))
                   probeRound := st.probeRound + 1 })) := by
  constructor
  · intro h1 h2 h3
    simp [retrieveClientsHealth, tsNow, h1, h2, h3]
  · intro h
    simp only [retrieveClientsHealth, tsNow]
    rw [if_neg (by simpa using h)]

/-- Witness for C5: under `envC1`, a young snapshot is returned unchanged
while a fresh facade probes both clients and stores the results. -/
theorem retrieveClientsHealth_spec_witness :
    retrieveClientsHealth envC1 stHit = ([hsOk, hsDown], { stHit with clockIdx := 6 }) ∧
    retrieveClientsHealth envC1 stBase =
      ([hsDown, hsOk],
       { stBase with clockIdx := 2, lastHealthCheckTs := 2,
                     healthStatuses := some [hsDown, hsOk], probeRound := 1 }) :=
  ⟨(retrieveClientsHealth_spec envC1 stHit [hsOk, hsDown]).1 (by decide) (by decide) rfl,
   (retrieveClientsHealth_spec envC1 stBase []).2 (by decide)⟩

/-- C6: `_get_current_client` returns the selected client unchanged when on
the primary (index 0) or when the snapshot age is within the heartbeat
(only the clock cursor advances); it delegates to `_get_next_client`
exactly when the selection is non-primary and the age exceeds the
heartbeat. -/
theorem getCurrentClient_spec (env : Env) (fuel : Nat) (st : MState) :
    (st.currentClientIndex = 0 →
      getCurrentClient env fuel st =
        some (GNCResult.client 0, { st with clockIdx := st.clockIdx + 1 }))
  ∧ (env.clock st.clockIdx - st.lastHealthCheckTs ≤ st.healthCheckHeartbeat →
      getCurrentClient env fuel st =
        some (GNCResult.client st.currentClientIndex, { st with clockIdx := st.clockIdx + 1 }))
  ∧ (0 < st.currentClientIndex →
     env.clock st.clockIdx - st.lastHealthCheckTs > st.healthCheckHeartbeat →
      getCurrentClient env fuel st = getNextClient env fuel { st with clockIdx := st.clockIdx + 1 }) := by
  refine ⟨?_, ?_, ?_⟩
  · intro h
    simp [getCurrentClient, tsNow, h]
  · intro h
    have hneg : ¬(0 < st.currentClientIndex ∧
        env.clock st.clockIdx - st.lastHealthCheckTs > st.healthCheckHeartbeat) := by
      intro hc
      omega
    simp only [getCurrentClient, tsNow]
    rw [if_neg (by simpa using hneg)]
  · intro h1 h2
    simp [getCurrentClient, tsNow, h1, h2]

/-- Witness for C6: on the primary the client is returned as-is; in a fresh
DEGRADED state client 1 is kept; in a stale DEGRADED state the call equals
the next-healthy-client search. -/
theorem getCurrentClient_spec_witness :
    getCurrentClient envC1 5 stBase = some (GNCResult.client 0, { stBase with clockIdx := 1 }) ∧
    getCurrentClient envC1 5 stDeg = some (GNCResult.client 1, { stDeg with clockIdx := 1 }) ∧
    getCurrentClient envC1 5 stStale = getNextClient envC1 5 { stStale with clockIdx := 1 } :=
  ⟨(getCurrentClient_spec envC1 5 stBase).1 rfl,
   (getCurrentClient_spec envC1 5 stDeg).2.1 (by decide),
   (getCurrentClient_spec envC1 5 stStale).2.2 (by decide) (by decide)⟩

/-- The `_get_next_client` loop never touches the failure-streak marker or
the configuration, and it writes `_current_client_index` only when it
returns a client, never on the all-down exit. -/
lemma getNextClientLoop_props (env : Env) (fuel : Nat) :
    ∀ (startTs : Int) (st : MState) (res : GNCResult) (st' : MState),
    getNextClientLoop env fuel startTs st = some (res, st') →
    st'.currentFailTs = st.currentFailTs ∧
    st'.fallbackTimeout = st.fallbackTimeout ∧
    st'.maxTryTimeout = st.maxTryTimeout ∧
    st'.callIdx = st.callIdx ∧
    st'.nClients = st.nClients ∧
    (∀ d, res = GNCResult.allDown d → st'.currentClientIndex = st.currentClientIndex) := by
  induction fuel with
  | zero =>
    intro startTs st res st' h
    simp [getNextClientLoop] at h
  | succ fuel ih =>
    intro startTs st res st' h
    obtain ⟨h1, h2, h3, h4, h5, h6, h7, h8⟩ := retrieve_state_pres env st
    simp only [getNextClientLoop] at h
    cases hf : findHealthyIdx (retrieveClientsHealth env st).1 with
    | some i =>
      simp only [hf] at h
      simp only [Option.some.injEq, Prod.mk.injEq] at h
      obtain ⟨hres, hst⟩ := h
      subst hst
      refine ⟨by simp [h2], by simp [h3], by simp [h4], by simp [h8], by simp [h5], ?_⟩
      intro d hd
      rw [← hres] at hd
      cases hd
    | none =>
      simp only [hf] at h
      split at h
      · simp only [Option.some.injEq, Prod.mk.injEq] at h
        obtain ⟨hres, hst⟩ := h
        subst hst
        exact ⟨by simp [tsNow, h2], by simp [tsNow, h3], by simp [tsNow, h4],
          by simp [tsNow, h8], by simp [tsNow, h5], fun d hd => by simp [tsNow, h1]⟩
      · have hrec := ih startTs _ res st' h
        obtain ⟨g1, g2, g3, g4, g5, g6⟩ := hrec
        refine ⟨by simp [tsNow] at g1; rw [g1, h2], by simp [tsNow] at g2; rw [g2, h3],
                by simp [tsNow] at g3; rw [g3, h4], by simp [tsNow] at g4; rw [g4, h8],
                by simp [tsNow] at g5; rw [g5, h5], ?_⟩
        intro d hd
        have := g6 d hd
        simp [tsNow] at this
        rw [this, h1]

/-- Same preservation facts lifted through the entry of
`_get_next_client` (the `start_ts` computation). -/
lemma getNextClient_props (env : Env) (fuel : Nat) (st : MState) (res : GNCResult) (st' : MState)
    (h : getNextClient env fuel st = some (res, st')) :
    st'.currentFailTs = st.currentFailTs ∧
    st'.fallbackTimeout = st.fallbackTimeout ∧
    st'.maxTryTimeout = st.maxTryTimeout ∧
    st'.callIdx = st.callIdx ∧
    st'.nClients = st.nClients ∧
    (∀ d, res = GNCResult.allDown d → st'.currentClientIndex = st.currentClientIndex) := by
  simp only [getNextClient] at h
  cases hft : st.currentFailTs with
  | some t =>
    simp only [hft] at h
    by_cases ht : t = 0
    · rw [if_pos ht] at h
      have := getNextClientLoop_props env fuel _ _ res st' h
      simpa [tsNow, hft] using this
    · rw [if_neg ht] at h
      have := getNextClientLoop_props env fuel _ _ res st' h
      rw [hft] at this
      exact this
  | none =>
    simp only [hft] at h
    have := getNextClientLoop_props env fuel _ _ res st' h
    simpa [tsNow, hft] using this

/-- C10: when `_get_next_client` terminates by raising the all-down
`MinioException`, the current client index is exactly what it was at
entry; the index is assigned only on the healthy-client exit. -/
theorem getNextClient_allDown_index_unchanged (env : Env) (fuel : Nat) (st : MState)
    (d : Int) (st' : MState)
    (h : getNextClient env fuel st = some (GNCResult.allDown d, st')) :
    st'.currentClientIndex = st.currentClientIndex :=
  (getNextClient_props env fuel st (GNCResult.allDown d) st' h).2.2.2.2.2 d rfl

/-- Witness for C10: under `envDown` the search from `stFail` raises
all-down after one probe round and leaves the index at its entry value. -/
theorem getNextClient_allDown_index_unchanged_witness :
    stDownFinal.currentClientIndex = stFail.currentClientIndex :=
  getNextClient_allDown_index_unchanged envDown 1 stFail 195 stDownFinal (by decide)

/-- C8: the failure-streak timestamp is the loop's time origin and is never
overwritten by the search: when a streak start exists (and, `TS` being
falsy at zero, differs from `TS(0)`), `_get_next_client` measures from it
and the loop leaves `_current_fail_ts` untouched; the dispatcher's
`markFail` records the start only when no streak is active and is the
identity otherwise. -/
theorem failStreak_origin_spec :
    (∀ (env : Env) (fuel : Nat) (st : MState) (t : Int),
       st.currentFailTs = some t → t ≠ 0 →
       getNextClient env fuel st = getNextClientLoop env fuel t st)
  ∧ (∀ (env : Env) (fuel : Nat) (startTs : Int) (st : MState) (res : GNCResult) (st' : MState),
       getNextClientLoop env fuel startTs st = some (res, st') →
       st'.currentFailTs = st.currentFailTs)
  ∧ (∀ (ts : Int) (st : MState), st.currentFailTs = none →
       (markFail ts st).currentFailTs = some ts)
  ∧ (∀ (ts t : Int) (st : MState), st.currentFailTs = some t → markFail ts st = st) := by
  refine ⟨?_, ?_, ?_, ?_⟩
  · intro env fuel st t hft ht
    simp [getNextClient, hft, ht]
  · intro env fuel startTs st res st' h
    exact (getNextClientLoop_props env fuel startTs st res st' h).1
  · intro ts st h
    simp [markFail, h]
  · intro ts t st h
    simp [markFail, h]

/-- Witness for C8: with the streak started at 5, the search measures from
5; the raising run preserves the marker; `markFail` records on a fresh
state and leaves `stFail` alone. -/
theorem failStreak_origin_spec_witness :
    getNextClient envDown 1 stFail = getNextClientLoop envDown 1 5 stFail ∧
    stDownFinal.currentFailTs = stFail.currentFailTs ∧
    (markFail 7 stBase).currentFailTs = some 7 ∧
    markFail 7 stFail = stFail :=
  ⟨failStreak_origin_spec.1 envDown 1 stFail 5 rfl (by decide),
   failStreak_origin_spec.2.1 envDown 1 5 stFail (GNCResult.allDown 195) stDownFinal (by decide),
   failStreak_origin_spec.2.2.1 7 stBase rfl,
   failStreak_origin_spec.2.2.2 7 5 stFail rfl⟩

/-- When every probe result is unhealthy and any cached snapshot is
unhealthy, `_retrieve_clients_health` hands back an unhealthy snapshot and
the cache stays unhealthy. -/
lemma retrieve_unhealthy (env : Env) (st : MState)
    (hp : ∀ r i, i < st.nClients → isHealthy (env.probe r i) = false)
    (hc : ∀ s, st.healthStatuses = some s → findHealthyIdx s = none) :
    findHealthyIdx (retrieveClientsHealth env st).1 = none ∧
    ∀ s, (retrieveClientsHealth env st).2.healthStatuses = some s → findHealthyIdx s = none := by
  simp only [retrieveClientsHealth, tsNow]
  split
  · constructor
    · cases hs : st.healthStatuses with
      | none => simp [hs, findHealthyIdx]
      | some s =>
        simpa [hs] using hc s hs
    · intro s hs
      exact hc s (by simpa using hs)
  · constructor
    · apply findHealthyIdx_none_of_all
      intro x hx
      simp only [List.mem_map, List.mem_range] at hx
      obtain ⟨i, hi, rfl⟩ := hx
      exact hp _ i (by simpa using hi)
    · intro s hs
      simp only [Option.some.injEq] at hs
      rw [← hs]
      apply findHealthyIdx_none_of_all
      intro x hx
      simp only [List.mem_map, List.mem_range] at hx
      obtain ⟨i, hi, rfl⟩ := hx
      exact hp _ i (by simpa using hi)

/-- The `_get_next_client` loop under an all-down world: it can terminate
only by raising, and the carried downtime then exceeds the fallback
timeout. -/
lemma getNextClientLoop_allDown_of_unhealthy (env : Env) (fuel : Nat) :
    ∀ (startTs : Int) (st : MState),
    (∀ r i, i < st.nClients → isHealthy (env.probe r i) = false) →
    (∀ s, st.healthStatuses = some s → findHealthyIdx s = none) →
    ∀ res st', getNextClientLoop env fuel startTs st = some (res, st') →
    ∃ d, res = GNCResult.allDown d ∧ d > st.fallbackTimeout := by
  induction fuel with
  | zero =>
    intro startTs st _ _ res st' h
    simp [getNextClientLoop] at h
  | succ fuel ih =>
    intro startTs st hp hc res st' h
    obtain ⟨hsnap, hcache⟩ := retrieve_unhealthy env st hp hc
    obtain ⟨p1, p2, p3, p4, p5, p6, p7, p8⟩ := retrieve_state_pres env st
    simp only [getNextClientLoop, hsnap] at h
    split at h
    · next hcond =>
      simp only [Option.some.injEq, Prod.mk.injEq] at h
      obtain ⟨hres, hst⟩ := h
      refine ⟨_, hres.symm, ?_⟩
      simp only [tsNow] at hcond
      simp only [p3] at hcond
      exact hcond
    · have hrec := ih startTs _ ?_ ?_ res st' h
      · obtain ⟨d, hd1, hd2⟩ := hrec
        refine ⟨d, hd1, ?_⟩
        simpa [tsNow, p3] using hd2
      · intro r i hi
        apply hp r i
        simpa [tsNow, p5] using hi
      · intro s hs
        apply hcache s
        simpa [tsNow] using hs

/-- C3: if no snapshot entry ever reads 200 (probes all fail and the cache
holds no healthy entry), then whenever the `_get_next_client` search
terminates it does so by raising the terminal all-down `MinioException` —
never by returning a client — and the downtime it reports strictly
exceeds `fallback_timeout`; until then it keeps looping (exit is decided
by elapsed duration, not attempt count). -/
theorem getNextClient_all_unhealthy_raises (env : Env) (st : MState)
    (hp : ∀ r i, i < st.nClients → isHealthy (env.probe r i) = false)
    (hc : ∀ s, st.healthStatuses = some s → findHealthyIdx s = none)
    (fuel : Nat) (h : (getNextClient env fuel st).isSome = true) :
    ∃ d st', getNextClient env fuel st = some (GNCResult.allDown d, st') ∧
      d > st.fallbackTimeout := by
  obtain ⟨⟨res, st'⟩, hsome⟩ := Option.isSome_iff_exists.mp h
  have hloop : ∃ startTs stE, getNextClientLoop env fuel startTs stE = some (res, st') ∧
      stE.nClients = st.nClients ∧ stE.healthStatuses = st.healthStatuses ∧
      stE.fallbackTimeout = st.fallbackTimeout := by
    have hgnc := hsome
    simp only [getNextClient] at hgnc
    cases hft : st.currentFailTs with
    | some t =>
      simp only [hft] at hgnc
      by_cases ht : t = 0
      · rw [if_pos ht] at hgnc
        exact ⟨_, _, hgnc, by simp [tsNow], by simp [tsNow], by simp [tsNow]⟩
      · rw [if_neg ht] at hgnc
        exact ⟨_, _, hgnc, rfl, rfl, rfl⟩
    | none =>
      simp only [hft] at hgnc
      exact ⟨_, _, hgnc, by simp [tsNow], by simp [tsNow], by simp [tsNow]⟩
  obtain ⟨startTs, stE, hloop, hn, hh, hf⟩ := hloop
  have := getNextClientLoop_allDown_of_unhealthy env fuel startTs stE
    (fun r i hi => hp r i (hn ▸ hi)) (fun s hs => hc s (hh ▸ hs)) res st' hloop
  obtain ⟨d, hd1, hd2⟩ := this
  subst hd1
  exact ⟨d, st', hsome, hf ▸ hd2⟩

/-- Witness for C3: under `envDown` from `stFail` the search raises the
all-down error with downtime 195 > 60. -/
theorem getNextClient_all_unhealthy_raises_witness :
    ∃ d st', getNextClient envDown 1 stFail = some (GNCResult.allDown d, st') ∧
      d > stFail.fallbackTimeout :=
  getNextClient_all_unhealthy_raises envDown stFail
    (fun _ _ _ => rfl) (fun s hs => by simp [stFail, stBase] at hs) 1 (by decide)

/-- C2: when the snapshot fetched by the search holds a healthy entry, the
search records the smallest healthy index as `_current_client_index` and
returns that client immediately — first match in construction (priority)
order, deterministically. -/
theorem getNextClient_first_healthy (env : Env) (fuel : Nat) (st : MState)
    (statuses : List HealthStatus) (st2 : MState) (i : Nat)
    (hr : retrieveClientsHealth env st = (statuses, st2))
    (hi : i < statuses.length)
    (hh : isHealthy (statuses.get ⟨i, hi⟩) = true)
    (hmin : ∀ x ∈ statuses.take i, isHealthy x = false) :
    (∀ startTs, getNextClientLoop env (fuel + 1) startTs st =
        some (GNCResult.client i, { st2 with currentClientIndex := i }))
  ∧ (∀ t, st.currentFailTs = some t → t ≠ 0 →
      getNextClient env (fuel + 1) st =
        some (GNCResult.client i, { st2 with currentClientIndex := i })) := by
  have hfind := findHealthyIdx_of_first statuses i hi hh hmin
  have hloop : ∀ startTs, getNextClientLoop env (fuel + 1) startTs st =
      some (GNCResult.client i, { st2 with currentClientIndex := i }) := by
    intro startTs
    simp only [getNextClientLoop, hr, hfind]
  refine ⟨hloop, ?_⟩
  intro t hft ht
  simp only [getNextClient, hft]
  rw [if_neg ht]
  exact hloop t

/-- Witness for C2: under `envC1` the fresh probe round reads
`[down, 200]`, so the search picks index 1 — the first healthy one. -/
theorem getNextClient_first_healthy_witness :
    getNextClientLoop envC1 1 5 stFail =
      some (GNCResult.client 1, { stFail2 with currentClientIndex := 1 }) ∧
    getNextClient envC1 1 stFail =
      some (GNCResult.client 1, { stFail2 with currentClientIndex := 1 }) :=
  ⟨(getNextClient_first_healthy envC1 0 stFail [hsDown, hsOk] stFail2 1
      (by decide) (by decide) (by decide) (by decide)).1 5,
   (getNextClient_first_healthy envC1 0 stFail [hsDown, hsOk] stFail2 1
      (by decide) (by decide) (by decide) (by decide)).2 5 rfl (by decide)⟩

/-- C4: an application-level error (`S3Error` or `InvalidResponseError`)
raised by the underlying call is re-raised at once: no probe is issued, no
other client is tried, and the state keeps its client index, failure
streak, snapshot, snapshot timestamp and probe round (only the clock and
call cursors advance). -/
theorem executeWithFallback_app_error_propagates (env : Env) (op : OperationSig) (fuel : Nat)
    (st : MState) (e : Int)
    (hhb : ¬(0 < st.currentClientIndex ∧
        env.clock (st.clockIdx + 1) - st.lastHealthCheckTs > st.healthCheckHeartbeat))
    (hbud : env.clock (st.clockIdx + 2) - env.clock st.clockIdx < st.fallbackTimeout) :
    (env.call st.callIdx st.currentClientIndex = CallOutcome.s3err e →
      executeWithFallback env op (fuel + 1) st =
        some (ExecResult.s3Error e,
          { st with clockIdx := st.clockIdx + 3, callIdx := st.callIdx + 1 }))
  ∧ (env.call st.callIdx st.currentClientIndex = CallOutcome.invalidResp e →
      executeWithFallback env op (fuel + 1) st =
        some (ExecResult.invalidResponse e,
          { st with clockIdx := st.clockIdx + 3, callIdx := st.callIdx + 1 })) := by
  constructor <;> intro hco <;>
    simp [executeWithFallback, getCurrentClient, execLoop, tsNow, hco, hbud, hhb]

/-- Witness for C4: under worlds raising `S3Error` / `InvalidResponseError`
the facade surfaces the error with only the cursors advanced. -/
theorem executeWithFallback_app_error_propagates_witness :
    executeWithFallback envS3 opW 1 stBase =
      some (ExecResult.s3Error 5, { stBase with clockIdx := 3, callIdx := 1 }) ∧
    executeWithFallback envIR opW 1 stBase =
      some (ExecResult.invalidResponse 9, { stBase with clockIdx := 3, callIdx := 1 }) :=
  ⟨(executeWithFallback_app_error_propagates envS3 opW 0 stBase 5 (by decide) (by decide)).1 rfl,
   (executeWithFallback_app_error_propagates envIR opW 0 stBase 9 (by decide) (by decide)).2 rfl⟩

/-- `markFail` only ever touches `_current_fail_ts`. -/
lemma markFail_maxTry (ts : Int) (st : MState) :
    (markFail ts st).maxTryTimeout = st.maxTryTimeout := by
  cases h : st.currentFailTs <;> simp [markFail, h]

/-- `_get_current_client` hands the dispatcher a state with the same
configured `max_try_timeout`. -/
lemma getCurrentClient_maxTry (env : Env) (fuel : Nat) (st : MState)
    (res : GNCResult) (st1 : MState)
    (h : getCurrentClient env fuel st = some (res, st1)) :
    st1.maxTryTimeout = st.maxTryTimeout := by
  simp only [getCurrentClient, tsNow] at h
  split at h
  · simpa using (getNextClient_props env fuel _ res st1 h).2.2.1
  · simp only [Option.some.injEq, Prod.mk.injEq] at h
    obtain ⟨-, hst⟩ := h
    rw [← hst]

/-- When the dispatcher loop exits by timeout, the terminal error message
carries the operation name, its arguments and the configured
`max_try_timeout` of the state the loop started from. -/
lemma execLoop_timeout_msg (env : Env) (op : OperationSig) (fuel : Nat) :
    ∀ (startTs : Int) (client : Nat) (st : MState) (n : String) (a : List Int)
      (s : Int) (st' : MState),
    execLoop env op fuel startTs client st = some (ExecResult.timeoutError n a s, st') →
    n = op.name ∧ a = op.args ∧ s = st.maxTryTimeout := by
  induction fuel with
  | zero =>
    intro startTs client st n a s st' h
    simp [execLoop] at h
  | succ fuel ih =>
    intro startTs client st n a s st' h
    simp only [execLoop, tsNow] at h
    split at h
    · cases hco : env.call st.callIdx client <;> simp only [hco] at h
      · simp at h
      · simp at h
      · simp at h
      · cases hgn : getNextClient env fuel (markFail startTs { st with
            clockIdx := st.clockIdx + 1, callIdx := st.callIdx + 1 }) with
        | none => rw [hgn] at h; simp at h
        | some pr =>
          obtain ⟨r4, st4⟩ := pr
          cases r4 with
          | allDown d => rw [hgn] at h; simp at h
          | client i =>
            rw [hgn] at h
            simp only at h
            have := ih startTs i st4 n a s st' h
            refine ⟨this.1, this.2.1, ?_⟩
            rw [this.2.2]
            have h4 := (getNextClient_props env fuel _ _ _ hgn).2.2.1
            rw [h4, markFail_maxTry]
    · simp only [Option.some.injEq, Prod.mk.injEq, ExecResult.timeoutError.injEq] at h
      obtain ⟨⟨hn, ha, hs⟩, -⟩ := h
      exact ⟨hn.symm, ha.symm, by rw [← hs]⟩

/-- Counterexample to C9 as stated: under `envDown` the retry loop from
`stMT` exits by timeout with an attempt that lasted 200 time units
(`clock 2 - clock 0`), yet the terminal error message interpolates the
configured `max_try_timeout` 77 — not the measured elapsed time (line 136
formats `self._max_try_timeout`, not a duration). -/
theorem executeWithFallback_timeout_reports_config_cex :
    executeWithFallback envDown opW 1 stMT =
      some (ExecResult.timeoutError "put_object" [3] 77, { stMT with clockIdx := 3 }) ∧
    envDown.clock 2 - envDown.clock 0 = 200 ∧ (77 : Int) ≠ 200 := by decide

/-- C9 (amended): when the dispatcher loop exits by timeout, the terminal
error message identifies the failed operation (name and arguments) and
the configured `max_try_timeout` — the code interpolates that constant,
not the measured elapsed time. -/
theorem executeWithFallback_timeout_msg (env : Env) (op : OperationSig) (fuel : Nat)
    (st : MState) (n : String) (a : List Int) (s : Int) (st' : MState)
    (h : executeWithFallback env op fuel st = some (ExecResult.timeoutError n a s, st')) :
    n = op.name ∧ a = op.args ∧ s = st.maxTryTimeout := by
  simp only [executeWithFallback, tsNow] at h
  cases hgc : getCurrentClient env fuel { st with clockIdx := st.clockIdx + 1 } with
  | none => rw [hgc] at h; simp at h
  | some pr =>
    obtain ⟨r1, st1⟩ := pr
    cases r1 with
    | allDown d => rw [hgc] at h; simp at h
    | client i =>
      rw [hgc] at h
      simp only at h
      have := execLoop_timeout_msg env op fuel _ i st1 n a s st' h
      refine ⟨this.1, this.2.1, ?_⟩
      rw [this.2.2]
      simpa using getCurrentClient_maxTry env fuel _ _ _ hgc

/-- Witness for the amended C9 at the concrete timing-out run. -/
theorem executeWithFallback_timeout_msg_witness :
    "put_object" = opW.name ∧ [3] = opW.args ∧ (77 : Int) = stMT.maxTryTimeout :=
  executeWithFallback_timeout_msg envDown opW 1 stMT "put_object" [3] 77
    { stMT with clockIdx := 3 } (by decide)

/-- C1: with the facade on endpoint 0 and no active streak, if the call on
endpoint 0 raises a transport error, the next (fresh) snapshot lists
endpoint 1 as the first healthy one, and the retried call on endpoint 1
succeeds while still inside `fallback_timeout`, then the facade returns
endpoint 1's result, clears the failure streak to `None`, sets the current
index to 1, and any later `_get_current_client` within the heartbeat
window keeps starting from endpoint 1. -/
theorem executeWithFallback_failover_success (env : Env) (op : OperationSig) (fuel : Nat)
    (st : MState) (e r : Int) (statuses : List HealthStatus)
    (hidx : st.currentClientIndex = 0)
    (hfail : st.currentFailTs = none)
    (hlast : st.lastHealthCheckTs = 0)
    (ht0 : env.clock st.clockIdx ≠ 0)
    (hb1 : env.clock (st.clockIdx + 2) - env.clock st.clockIdx < st.fallbackTimeout)
    (hcall0 : env.call st.callIdx 0 = CallOutcome.transport e)
    (hprobe : (List.range st.nClients).map (env.probe st.probeRound) = statuses)
    (hfind : findHealthyIdx statuses = some 1)
    (hb2 : env.clock (st.clockIdx + 5) - env.clock st.clockIdx < st.fallbackTimeout)
    (hcall1 : env.call (st.callIdx + 1) 1 = CallOutcome.ok r) :
    ∃ st', executeWithFallback env op (fuel + 2) st = some (ExecResult.ok r, st')
      ∧ st'.currentClientIndex = 1 ∧ st'.currentFailTs = none
      ∧ st'.lastHealthCheckTs = env.clock (st.clockIdx + 4)
      ∧ ∀ fuel2, env.clock st'.clockIdx - st'.lastHealthCheckTs ≤ st'.healthCheckHeartbeat →
          ∃ st'', getCurrentClient env fuel2 st' = some (GNCResult.client 1, st'') := by
  apply Exists.intro { st with
    currentClientIndex := 1
    currentFailTs := none
    lastHealthCheckTs := env.clock (st.clockIdx + 4)
    healthStatuses := some statuses
    probeRound := st.probeRound + 1
    clockIdx := st.clockIdx + 6
    callIdx := st.callIdx + 2 }
  refine ⟨?_, rfl, rfl, rfl, ?_⟩
  · simp [executeWithFallback, getCurrentClient, execLoop, getNextClient, getNextClientLoop,
      retrieveClientsHealth, tsNow, markFail, hidx, hfail, hlast, ht0, hb1, hcall0, hprobe,
      hfind, hb2, hcall1]
  · intro fuel2 hage
    simp only at hage
    apply Exists.intro { st with
      currentClientIndex := 1
      currentFailTs := none
      lastHealthCheckTs := env.clock (st.clockIdx + 4)
      healthStatuses := some statuses
      probeRound := st.probeRound + 1
      clockIdx := st.clockIdx + 7
      callIdx := st.callIdx + 2 }
    simp only [getCurrentClient, tsNow]
    rw [if_neg (by omega)]

/-- Witness for C1: under `envC1` the failed call on endpoint 0 falls over
to endpoint 1, returning its result 42 with the streak cleared and the
index at 1. -/
theorem executeWithFallback_failover_success_witness :
    ∃ st', executeWithFallback envC1 opW 2 stBase = some (ExecResult.ok 42, st')
      ∧ st'.currentClientIndex = 1 ∧ st'.currentFailTs = none
      ∧ st'.lastHealthCheckTs = envC1.clock 4
      ∧ ∀ fuel2, envC1.clock st'.clockIdx - st'.lastHealthCheckTs ≤ st'.healthCheckHeartbeat →
          ∃ st'', getCurrentClient envC1 fuel2 st' = some (GNCResult.client 1, st'') :=
  executeWithFallback_failover_success envC1 opW 0 stBase 7 42 [hsDown, hsOk]
    rfl rfl rfl (by decide) (by decide) (by decide) (by decide) (by decide)
    (by decide) (by decide)

/-- Counterexample to C8 as stated: with a recorded streak start of `TS(0)`
(`stZ`), line 142's `self._current_fail_ts or self._ts_type.now()` treats
the zero timestamp as falsy, so the search does not measure downtime from
the existing streak start 0: the run differs from the run that measures
from 0 (it raises `allDown 300` instead of `allDown 250`). -/
theorem failStreak_zero_falsy_cex :
    stZ.currentFailTs = some 0 ∧
    getNextClient envZ 1 stZ ≠ getNextClientLoop envZ 1 0 stZ ∧
    (getNextClient envZ 1 stZ).map (fun pr => pr.1) = some (GNCResult.allDown 300) ∧
    (getNextClientLoop envZ 1 0 stZ).map (fun pr => pr.1) = some (GNCResult.allDown 250) := by
  decide
